import Mathlib

/-!
Verification development for the `integrate_tester` dynamic mock server.

The Go source is shallowly embedded:
* Go `interface{}` values (as produced by `encoding/json`) become `GoValue`;
  JSON numbers (Go `float64`) are modelled as exact rationals `ℚ`, which agrees
  with Go on every value exercised by the theorems below (small integers).
* Go runtime panics (out-of-range slice index, `rand.Intn` with a non-positive
  argument, `make` with a negative length) are modelled by `Option`: `none`
  means the Go code panics at that point.
* Randomness and the cryptographic hash primitives are abstracted as an
  `Oracle` parameter; the control flow around them is translated literally.
-/

namespace DMS

/-- Model of a loosely-typed Go value (`interface{}` holding decoded JSON).
`vNull` is the nil interface (JSON null / absent value). Numbers are `ℚ`
standing in for Go `float64`, exact on the integral values used here. -/
inductive GoValue where
  | vNull : GoValue
  | vNum : ℚ → GoValue
  | vStr : String → GoValue
  | vBool : Bool → GoValue
  | vArr : List GoValue → GoValue
  | vObj : List (String × GoValue) → GoValue
deriving Repr

/-- First match in an association list (Go map lookup; keys are unique). -/
def lookupField (fields : List (String × GoValue)) (k : String) : Option GoValue :=
  match fields with
  | [] => none
  | (k', v) :: rest => if k' = k then some v else lookupField rest k

mutual
/-- Go `reflect.DeepEqual` on decoded-JSON values: per-type structural
equality; maps compare key-sets and values irrespective of entry order. -/
def deepEqual : GoValue → GoValue → Bool
  | .vNull, .vNull => true
  | .vNum a, .vNum b => a == b
  | .vStr a, .vStr b => a == b
  | .vBool a, .vBool b => a == b
  | .vArr xs, .vArr ys => deepEqualList xs ys
  | .vObj xs, .vObj ys => xs.length == ys.length && deepEqualFields xs ys
  | _, _ => false

def deepEqualList : List GoValue → List GoValue → Bool
  | [], [] => true
  | x :: xs, y :: ys => deepEqual x y && deepEqualList xs ys
  | _, _ => false

def deepEqualFields : List (String × GoValue) → List (String × GoValue) → Bool
  | [], _ => true
  | (k, v) :: rest, ys =>
      (match lookupField ys k with
       | some w => deepEqual v w
       | none => false) && deepEqualFields rest ys
end

/-- Whether `p` occurs at the head of `s`. -/
def listStarts : List Char → List Char → Bool
  | [], _ => true
  | _ :: _, [] => false
  | p :: ps, c :: cs => p == c && listStarts ps cs

/-- Go `strings.Contains` (on char lists). -/
def containsSub (s sub : List Char) : Bool :=
  if listStarts sub s then true
  else match s with
    | [] => false
    | _ :: t => containsSub t sub

/-- Go `strings.Contains`. -/
def goContains (s sub : String) : Bool :=
  containsSub s.toList sub.toList

/-- Go `strings.HasSuffix`. -/
def goEndsWith (s suf : String) : Bool :=
  listStarts suf.toList.reverse s.toList.reverse

def isDigitChar (c : Char) : Bool := '0' ≤ c && c ≤ '9'

def digitsToNat : List Char → Nat
  | [] => 0
  | c :: cs => digitsToNat cs + c.toNat * 10 ^ cs.length - '0'.toNat * 10 ^ cs.length

/-- Value of a non-empty all-digit string. -/
def natOfDigits (cs : List Char) : Nat :=
  cs.foldl (fun acc c => acc * 10 + (c.toNat - '0'.toNat)) 0

/-- Go `strconv.Atoi` with its error discarded, as the sources do
(`idx, _ = strconv.Atoi(idxStr)`): any parse failure yields 0. -/
def goAtoi (s : String) : Int :=
  match s.toList with
  | '-' :: rest =>
      if rest ≠ [] ∧ rest.all isDigitChar then -(natOfDigits rest : Int) else 0
  | '+' :: rest =>
      if rest ≠ [] ∧ rest.all isDigitChar then (natOfDigits rest : Int) else 0
  | cs =>
      if cs ≠ [] ∧ cs.all isDigitChar then (natOfDigits cs : Nat) else 0

/-- Split at every occurrence of `sep` (Go `strings.Split` with a
one-character separator: n+1 groups for n separators, `[""]` on ""). -/
def splitOnChar (sep : Char) : List Char → List (List Char)
  | [] => [[]]
  | x :: rest =>
      match splitOnChar sep rest with
      | [] => [[]]
      | g :: gs => if x == sep then [] :: g :: gs else (x :: g) :: gs

/-- Go `strconv.ParseFloat` with the error discarded (the sources do
`f, _ := strconv.ParseFloat(v, 64)`): plain decimal literals
(optional sign, digits, optional fractional part) parse to their value,
anything else yields 0. Exponent forms are not modelled; no theorem below
depends on them. -/
def goParseFloat (s : String) : ℚ :=
  let core : List Char → ℚ := fun cs =>
    match splitOnChar '.' cs with
    | [intPart] =>
        if intPart ≠ [] ∧ intPart.all isDigitChar then (natOfDigits intPart : ℚ) else 0
    | [intPart, fracPart] =>
        if intPart ≠ [] ∧ fracPart ≠ [] ∧ intPart.all isDigitChar ∧ fracPart.all isDigitChar then
          (natOfDigits intPart : ℚ) + (natOfDigits fracPart : ℚ) / ((10 : ℚ) ^ fracPart.length)
        else 0
    | _ => 0
  match s.toList with
  | '-' :: rest => -(core rest)
  | '+' :: rest => core rest
  | cs => core cs

mutual
/-- Go `fmt.Sprintf("%v", ·)` on a decoded-JSON value. Exact for the nil
interface (`<nil>`), booleans, strings and integral numbers — the only
shapes the theorems below format. Non-integral numbers and composites are
given a definite rendering whose fine detail no theorem depends on. -/
def gofmt : GoValue → String
  | .vNull => "<nil>"
  | .vNum q => if q.den = 1 then toString q.num else toString q.num ++ "/" ++ toString q.den
  | .vStr s => s
  | .vBool b => if b then "true" else "false"
  | .vArr xs => "[" ++ gofmtList xs ++ "]"
  | .vObj xs => "map[" ++ gofmtFields xs ++ "]"

def gofmtList : List GoValue → String
  | [] => ""
  | [x] => gofmt x
  | x :: xs => gofmt x ++ " " ++ gofmtList xs

def gofmtFields : List (String × GoValue) → String
  | [] => ""
  | [(k, v)] => k ++ ":" ++ gofmt v
  | (k, v) :: xs => k ++ ":" ++ gofmt v ++ " " ++ gofmtFields xs
end

/-- Go conversion `int(f)` from `float64`: truncation toward zero. -/
def goTrunc (q : ℚ) : Int := q.num.tdiv (q.den : Int)

/-- Whether the value is Go's nil interface. -/
def isNull : GoValue → Bool
  | .vNull => true
  | _ => false

end DMS

namespace V1

open DMS

/- Condition keyword constants of `pkg/v1` (model.go). -/
def ConditionEqual : String := "Equal"
def ConditionNotEqual : String := "NotEqual"
def ConditionGreaterThan : String := "GreaterThan"
def ConditionLessThan : String := "LessThan"
def ConditionGreaterThanOrEqual : String := "GreaterThanOrEqual"
def ConditionLessThanOrEqual : String := "LessThanOrEqual"
def ConditionContains : String := "Contains"
def ConditionNotContains : String := "NotContains"
def ConditionStartsWith : String := "StartsWith"
def ConditionEndsWith : String := "EndsWith"

/-- `isNumber` from pkg/v1/request.go: true exactly for Go's native numeric
types. In the model only `vNum` carries a native number. -/
def isNumber : GoValue → Bool
  | .vNum _ => true
  | _ => false

/-- `toFloat64` from pkg/v1/request.go: the numeric value of a native
number, 0 for anything else. -/
def toFloat64 : GoValue → ℚ
  | .vNum q => q
  | _ => 0

/-- `valuesEqual` from the v1 condition library: null equals only null,
two native numbers compare numerically, otherwise `reflect.DeepEqual`. -/
def valuesEqual (a b : GoValue) : Bool :=
  if isNull a || isNull b then isNull a && isNull b
  else if isNumber a && isNumber b then toFloat64 a == toFloat64 b
  else deepEqual a b

/-- `compareNumbers` from the v1 condition library: false unless both
operands are native numbers. -/
def compareNumbers (a b : GoValue) (cmp : ℚ → ℚ → Bool) : Bool :=
  if isNull a || isNull b then false
  else if isNumber a && isNumber b then cmp (toFloat64 a) (toFloat64 b)
  else false

/-- `stringContains` from the v1 condition library: false if either side is
nil, otherwise the string predicate on the `%v`-formatted operands. -/
def stringContains (a b : GoValue) (cmp : String → String → Bool) : Bool :=
  if isNull a || isNull b then false
  else cmp (gofmt a) (gofmt b)

/-- `evaluateCondition` from the v1 condition library (part_006). -/
def evaluateCondition (actual : GoValue) (condition : String) (expected : GoValue) : Bool :=
  if condition = ConditionEqual then valuesEqual actual expected
  else if condition = ConditionNotEqual then !(valuesEqual actual expected)
  else if condition = ConditionGreaterThan then compareNumbers actual expected (fun a b => a > b)
  else if condition = ConditionLessThan then compareNumbers actual expected (fun a b => a < b)
  else if condition = ConditionGreaterThanOrEqual then compareNumbers actual expected (fun a b => a ≥ b)
  else if condition = ConditionLessThanOrEqual then compareNumbers actual expected (fun a b => a ≤ b)
  else if condition = ConditionContains then stringContains actual expected (fun a b => goContains a b)
  else if condition = ConditionNotContains then stringContains actual expected (fun a b => !(goContains a b))
  else if condition = ConditionStartsWith then stringContains actual expected (fun a b => listStarts b.toList a.toList)
  else if condition = ConditionEndsWith then stringContains actual expected (fun a b => goEndsWith a b)
  else false

end V1

namespace DMS

/- Constants from the mock server's model.go. -/
def GroupPrepareData : String := "PrepareData"
def GroupGenerator : String := "Generator"
def GroupDynamicVariable : String := "DynamicVariable"
def GroupSetupResponse : String := "SetupResponse"

def ConditionEqual : String := "Equal"

/-- `checkCondition` from the mock server's handler (part_017): both
operands are `%v`-stringified and only `Equal` is implemented; every other
condition keyword evaluates false. -/
def checkCondition (actual : GoValue) (cond : String) (expected : GoValue) : Bool :=
  let actStr := gofmt actual
  let expStr := gofmt expected
  if cond = ConditionEqual then actStr == expStr else false

/- Function name constants from the mock server's model.go; the SetCase and
Extract names are not in the model.go under src/ but are referenced by the
handler and client, with values following the same name-equals-string scheme. -/
def FuncIfRequestHeader : String := "IfRequestHeader"
def FuncIfRequestJsonBody : String := "IfRequestJsonBody"
def FuncIfRequestPath : String := "IfRequestPath"
def FuncIfRequestQuery : String := "IfRequestQuery"
def FuncIfRequestHeaderSetCase : String := "IfRequestHeaderSetCase"
def FuncIfRequestJsonBodySetCase : String := "IfRequestJsonBodySetCase"
def FuncIfRequestPathSetCase : String := "IfRequestPathSetCase"
def FuncIfRequestQuerySetCase : String := "IfRequestQuerySetCase"
def FuncExtractRequestHeader : String := "ExtractRequestHeader"
def FuncExtractRequestJsonBody : String := "ExtractRequestJsonBody"
def FuncExtractRequestPath : String := "ExtractRequestPath"
def FuncExtractRequestQuery : String := "ExtractRequestQuery"
def FuncGenerateRandomString : String := "GenerateRandomString"
def FuncGenerateRandomInt : String := "GenerateRandomInt"
def FuncGenerateRandomIntFixLength : String := "GenerateRandomIntFixLength"
def FuncGenerateRandomDecimal : String := "GenerateRandomDecimal"
def FuncHashedString : String := "HashedString"
def FuncConvertToString : String := "ConvertToString"
def FuncConvertToInt : String := "ConvertToInt"
def FuncDelete : String := "Delete"
def FuncSetJsonBody : String := "SetJsonBody"
def FuncSetStatusCode : String := "SetStatusCode"
def FuncSetWait : String := "SetWait"
def FuncSetRandomWait : String := "SetRandomWait"
def FuncSetMethod : String := "SetMethod"
def FuncSetHeader : String := "SetHeader"
def FuncCopyHeaderFromRequest : String := "CopyHeaderFromRequest"

/-- `ResponseFuncConfig` from model.go: one instruction of a script. -/
structure ResponseFuncConfig where
  Group : String
  Func : String
  Args : List GoValue

/-- `toFloat` from the handler's utils: float64 and int pass through,
strings go through `strconv.ParseFloat` with the error discarded,
anything else is 0. -/
def toFloat : GoValue → ℚ
  | .vNum q => q
  | .vStr s => goParseFloat s
  | _ => 0

/-- `pow10` from the handler's utils: a loop multiplying 1.0 by 10 `n`
times, hence 1 for any `n ≤ 0`. -/
def pow10 (n : Int) : ℚ :=
  if n ≤ 0 then 1 else (10 : ℚ) ^ n.toNat

/-- One item of a parsed `text/template`: a literal character or a
field action on the dot (`\x7b\x7b.Name\x7d\x7d`). -/
inductive TItem where
  | lit : Char → TItem
  | field : String → TItem

def isIdentChar (c : Char) : Bool := c.isAlphanum || c == '_'

/-- Parser for the fragment of Go `text/template` syntax this repository's
scripts use: plain text interleaved with `\x7b\x7b.Ident\x7d\x7d` actions.
Anything else inside an action is a parse error (`none`), matching
`template.Parse` failing on malformed input such as an unclosed action.
Fuel-indexed; the fuel is always at least the input length plus one. -/
def parseTmpl : Nat → List Char → Option (List TItem)
  | 0, _ => none
  | _ + 1, [] => some []
  | fuel + 1, '\x7b' :: '\x7b' :: rest =>
      (match rest with
       | '.' :: rest2 =>
           let name := rest2.takeWhile isIdentChar
           let rest3 := rest2.dropWhile isIdentChar
           if name = [] then none
           else match rest3 with
             | '\x7d' :: '\x7d' :: rest4 =>
                 (match parseTmpl fuel rest4 with
                  | some items => some (.field (String.mk name) :: items)
                  | none => none)
             | _ => none
       | _ => none)
  | fuel + 1, c :: rest =>
      match parseTmpl fuel rest with
      | some items => some (.lit c :: items)
      | none => none

/-- Rendering a parsed template against the variable map. A bound variable
prints with `%v` formatting; an unbound reference prints as `<no value>`,
which is what `text/template` emits for a missing map key (the default
`missingkey=invalid` mode). Execution of this fragment never errors. -/
def renderTmpl (vars : List (String × GoValue)) : List TItem → String
  | [] => ""
  | .lit c :: rest => String.mk [c] ++ renderTmpl vars rest
  | .field n :: rest =>
      (match lookupField vars n with
       | some v => gofmt v
       | none => "<no value>") ++ renderTmpl vars rest

/-- `resolveString` from the handler: strings without `\x7b\x7b` pass
through untouched; otherwise the string is parsed and executed as a
template, and returned verbatim if parsing fails. -/
def resolveString (vars : List (String × GoValue)) (s : String) : String :=
  if !(goContains s "\x7b\x7b") then s
  else match parseTmpl (s.toList.length + 1) s.toList with
    | none => s
    | some items => renderTmpl vars items

/-- `resolveArg` from the handler: template-resolve string arguments,
pass every other value through. -/
def resolveArg (vars : List (String × GoValue)) : GoValue → GoValue
  | .vStr s => .vStr (resolveString vars s)
  | v => v

/-- The key/index split of one path segment in `getJSONPath`: a segment
containing `[` and ending in `]` is cut at the first `[`; the text between
the brackets goes through `strconv.Atoi` with the error discarded.
Other segments keep index -1 (no array access). -/
def splitBracket (part : String) : String × Int :=
  if goContains part "[" ∧ goEndsWith part "]" then
    let cs := part.toList
    let idxStart := (cs.takeWhile (fun c => c ≠ '[')).length
    let key := cs.take idxStart
    let idxStr := (cs.drop (idxStart + 1)).dropLast
    (String.mk key, goAtoi (String.mk idxStr))
  else (part, -1)

/-- The per-segment loop of `getJSONPath`. Returning `vNull` models Go
returning the nil interface (the "not found" result). -/
def getJSONPathAux : List String → GoValue → GoValue
  | [], current => current
  | part :: rest, current =>
      let (key, idx) := splitBracket part
      match current with
      | .vObj fields =>
          (match lookupField fields key with
           | none => .vNull
           | some val =>
               if 0 ≤ idx then
                 match val with
                 | .vArr arr =>
                     if h : idx.toNat < arr.length then
                       getJSONPathAux rest (arr.get ⟨idx.toNat, h⟩)
                     else .vNull
                 | _ => .vNull
               else getJSONPathAux rest val)
      | _ => .vNull

/-- `getJSONPath` from the handler: nil body resolves to nil; otherwise the
dot-separated path is walked segment by segment. -/
def getJSONPath (parsedBody : Option GoValue) (path : String) : GoValue :=
  match parsedBody with
  | none => .vNull
  | some body => getJSONPathAux ((splitOnChar '.' path.toList).map String.mk) body

/-- The inbound request as the handler observes it. `jsonBody` is the
result of the `json.Unmarshal` in `Execute`: `none` when the body is
absent, empty or invalid JSON (the raw-bytes buffering and JSON text
parsing are not re-modelled). -/
structure Request where
  method : String
  path : String
  headers : List (String × String)
  query : List (String × String)
  jsonBody : Option GoValue

def lookupStr (xs : List (String × String)) (k : String) : Option String :=
  match xs with
  | [] => none
  | (k', v) :: rest => if k' = k then some v else lookupStr rest k

/-- Go `http.Header.Get` / `url.Values.Get`: first value for the key, or
the empty string. (MIME canonicalization of header names is abstracted:
lookups here use the name verbatim, and every concrete name below is
already in canonical form.) -/
def valuesGet (xs : List (String × String)) (k : String) : String :=
  (lookupStr xs k).getD ""

/-- Go map assignment `m[k] = v`: replace the binding or append it. -/
def setVar (vars : List (String × GoValue)) (k : String) (v : GoValue) : List (String × GoValue) :=
  match vars with
  | [] => [(k, v)]
  | (k', v') :: rest => if k' = k then (k, v) :: rest else (k', v') :: setVar rest k v

/-- Go `delete(m, k)`. -/
def delVar (vars : List (String × GoValue)) (k : String) : List (String × GoValue) :=
  match vars with
  | [] => []
  | (k', v') :: rest => if k' = k then delVar rest k else (k', v') :: delVar rest k

/-- Go map assignment on the pending response headers. -/
def setHeader (hs : List (String × String)) (k v : String) : List (String × String) :=
  match hs with
  | [] => [(k, v)]
  | (k', v') :: rest => if k' = k then (k, v) :: rest else (k', v') :: setHeader rest k v

/-- The mutable per-request state of `HandlerExecutor` (part_017), minus
the writer/request handles, which are passed separately. `FixedDelay` and
the random-wait bounds are in milliseconds. -/
structure HandlerExecutor where
  Variables : List (String × GoValue)
  ParsedBody : Option GoValue
  StatusCode : Int
  Body : String
  Headers : List (String × String)
  FixedDelay : Int
  RandomWaitMin : Int
  RandomWaitMax : Int
  ActiveCase : String

/-- `NewHandlerExecutor`: fresh maps, status 200, and Go zero values for
the rest — in particular the active case starts as the empty string. -/
def NewHandlerExecutor : HandlerExecutor :=
  { Variables := []
    ParsedBody := none
    StatusCode := 200
    Body := ""
    Headers := []
    FixedDelay := 0
    RandomWaitMin := 0
    RandomWaitMax := 0
    ActiveCase := "" }

/-- Environment abstracting the primitives outside the repository:
the `math/rand` stream (read at an incrementing cursor) and the two hash
encoders. The control flow around them is translated literally. -/
structure Oracle where
  rng : Nat → Nat
  md5Hex : String → String
  sha256Hex : String → String

/-- `rand.Intn(n)` at cursor `k`: panics (`none`) unless `n > 0`, else a
value in `[0, n)`. -/
def randIntn (o : Oracle) (k : Nat) (n : Int) : Option Int :=
  if n ≤ 0 then none else some ((o.rng k : Int) % n)

/-- `rand.Float64()` at cursor `k`: some value in `[0, 1)`. -/
def randFloat (o : Oracle) (k : Nat) : ℚ :=
  ((o.rng k % 1000000 : Nat) : ℚ) / 1000000

def lettersList : List Char :=
  "abcdefghijklmnopqrstuvwxyzABCDEFGHIJKLMNOPQRSTUVWXYZ0123456789".toList

/-- `randomString(n)` from the handler's utils: `make([]byte, n)` panics on
a negative length (`none`); otherwise `n` draws of `rand.Intn(62)` index
the letters table. Returns the string plus the advanced rng cursor. -/
def randomString (o : Oracle) (k : Nat) (n : Int) : Option (String × Nat) :=
  if n < 0 then none
  else some (String.mk (((List.range n.toNat).map
    (fun i => lettersList.getD (o.rng (k + i) % 62) 'a'))), k + n.toNat)

/-- Go `args[i]`: `none` models the index-out-of-range panic. -/
def getArg : List GoValue → Nat → Option GoValue
  | [], _ => none
  | x :: _, 0 => some x
  | _ :: xs, n + 1 => getArg xs n

/-- Go `args[i]` under an already-checked length bound (the PrepareData
cases guard with `len(args) < n` before indexing, so this never has to
model a panic). -/
def argD : List GoValue → Nat → GoValue
  | [], _ => .vNull
  | x :: _, 0 => x
  | _ :: xs, n + 1 => argD xs n

/-- The shared tail of `handlePrepareData`: after the switch, the
non-returning cases fall through to
`if h.checkCondition(actual, condition, expected) then Variables[target] = toBe`. -/
def prepBottom (h : HandlerExecutor) (actual : GoValue) (condition : String)
    (expected : GoValue) (target : String) (toBe : GoValue) : HandlerExecutor :=
  if checkCondition actual condition expected then
    { h with Variables := setVar h.Variables target toBe }
  else h

/-- `handlePrepareData` from the handler (part_017). Every case checks
`len(args)` before indexing, so this group never panics; it always returns
a nil error. The four `If…` variants fall through to `prepBottom`; the
`…SetCase` variants overwrite `ActiveCase` when their condition holds; the
`Extract…` variants bind unconditionally. An unrecognized name leaves the
zero values in place, and `checkCondition` with condition `""` is false,
so it is a no-op (written out literally below). -/
def handlePrepareData (req : Request) (f : ResponseFuncConfig) (h : HandlerExecutor) : HandlerExecutor :=
  let args := f.Args
  if f.Func = FuncIfRequestHeader then
    if args.length < 5 then h else
    prepBottom h (.vStr (valuesGet req.headers (gofmt (argD args 0)))) (gofmt (argD args 1))
      (resolveArg h.Variables (argD args 2)) (gofmt (argD args 3)) (resolveArg h.Variables (argD args 4))
  else if f.Func = FuncIfRequestJsonBody then
    if args.length < 5 then h else
    prepBottom h (getJSONPath h.ParsedBody (gofmt (argD args 0))) (gofmt (argD args 1))
      (resolveArg h.Variables (argD args 2)) (gofmt (argD args 3)) (resolveArg h.Variables (argD args 4))
  else if f.Func = FuncIfRequestPath then
    if args.length < 4 then h else
    prepBottom h (.vStr req.path) (gofmt (argD args 0))
      (resolveArg h.Variables (argD args 1)) (gofmt (argD args 2)) (resolveArg h.Variables (argD args 3))
  else if f.Func = FuncIfRequestQuery then
    if args.length < 5 then h else
    prepBottom h (.vStr (valuesGet req.query (gofmt (argD args 0)))) (gofmt (argD args 1))
      (resolveArg h.Variables (argD args 2)) (gofmt (argD args 3)) (resolveArg h.Variables (argD args 4))
  else if f.Func = FuncIfRequestHeaderSetCase then
    if args.length < 4 then h else
    if checkCondition (.vStr (valuesGet req.headers (gofmt (argD args 0)))) (gofmt (argD args 1))
        (resolveArg h.Variables (argD args 2)) then
      { h with ActiveCase := gofmt (argD args 3) }
    else h
  else if f.Func = FuncIfRequestJsonBodySetCase then
    if args.length < 4 then h else
    if checkCondition (getJSONPath h.ParsedBody (gofmt (argD args 0))) (gofmt (argD args 1))
        (resolveArg h.Variables (argD args 2)) then
      { h with ActiveCase := gofmt (argD args 3) }
    else h
  else if f.Func = FuncIfRequestPathSetCase then
    if args.length < 3 then h else
    if checkCondition (.vStr req.path) (gofmt (argD args 0))
        (resolveArg h.Variables (argD args 1)) then
      { h with ActiveCase := gofmt (argD args 2) }
    else h
  else if f.Func = FuncIfRequestQuerySetCase then
    if args.length < 4 then h else
    if checkCondition (.vStr (valuesGet req.query (gofmt (argD args 0)))) (gofmt (argD args 1))
        (resolveArg h.Variables (argD args 2)) then
      { h with ActiveCase := gofmt (argD args 3) }
    else h
  else if f.Func = FuncExtractRequestHeader then
    if args.length < 2 then h else
    let v := GoValue.vStr (valuesGet req.headers (gofmt (argD args 0)))
    { h with Variables := setVar h.Variables (gofmt (argD args 1)) v }
  else if f.Func = FuncExtractRequestJsonBody then
    if args.length < 2 then h else
    let val := getJSONPath h.ParsedBody (gofmt (argD args 0))
    if isNull val then h
    else { h with Variables := setVar h.Variables (gofmt (argD args 1)) val }
  else if f.Func = FuncExtractRequestPath then
    if args.length < 1 then h else
    { h with Variables := setVar h.Variables (gofmt (argD args 0)) (.vStr req.path) }
  else if f.Func = FuncExtractRequestQuery then
    if args.length < 2 then h else
    let v := GoValue.vStr (valuesGet req.query (gofmt (argD args 0)))
    { h with Variables := setVar h.Variables (gofmt (argD args 1)) v }
  else
    prepBottom h .vNull "" .vNull "" .vNull

/-- `handleGenerator` from the handler (part_017). No case guards its
argument count: `args[i]` out of range panics (`none`), as does
`rand.Intn` with a non-positive span and `make([]byte, n)` with a negative
length. Returns the new state and rng cursor. -/
def handleGenerator (o : Oracle) (f : ResponseFuncConfig) (h : HandlerExecutor) (k : Nat) :
    Option (HandlerExecutor × Nat) :=
  let args := f.Args
  if f.Func = FuncGenerateRandomString then
    match getArg args 0, getArg args 1 with
    | some a0, some a1 =>
        (match randomString o k (goTrunc (toFloat a0)) with
         | some (s, k') => some ({ h with Variables := setVar h.Variables (gofmt a1) (.vStr s) }, k')
         | none => none)
    | _, _ => none
  else if f.Func = FuncGenerateRandomInt then
    match getArg args 0, getArg args 1, getArg args 2 with
    | some a0, some a1, some a2 =>
        let lo := goTrunc (toFloat a0)
        let hi := goTrunc (toFloat a1)
        (match randIntn o k (hi - lo + 1) with
         | some d => some ({ h with Variables := setVar h.Variables (gofmt a2) (.vNum ((d + lo : Int) : ℚ)) }, k + 1)
         | none => none)
    | _, _, _ => none
  else if f.Func = FuncGenerateRandomIntFixLength then
    match getArg args 0, getArg args 1 with
    | some a0, some a1 =>
        let len := goTrunc (toFloat a0)
        let lo := goTrunc (1 * pow10 (len - 1))
        let hi := goTrunc (1 * pow10 len - 1)
        (match randIntn o k (hi - lo + 1) with
         | some d => some ({ h with Variables := setVar h.Variables (gofmt a1) (.vNum ((d + lo : Int) : ℚ)) }, k + 1)
         | none => none)
    | _, _ => none
  else if f.Func = FuncGenerateRandomDecimal then
    match getArg args 0, getArg args 1, getArg args 3 with
    | some a0, some a1, some a3 =>
        let lo := toFloat a0
        let hi := toFloat a1
        let v := GoValue.vNum (lo + randFloat o k * (hi - lo))
        some ({ h with Variables := setVar h.Variables (gofmt a3) v }, k + 1)
    | _, _, _ => none
  else if f.Func = FuncHashedString then
    match getArg args 0, getArg args 1, getArg args 2 with
    | some a0, some a1, some a2 =>
        let val := gofmt ((lookupField h.Variables (gofmt a0)).getD .vNull)
        let algo := gofmt a1
        let hash := if algo = "MD5" then o.md5Hex val
          else if algo = "SHA256" then o.sha256Hex val
          else ""
        some ({ h with Variables := setVar h.Variables (gofmt a2) (.vStr hash) }, k)
    | _, _, _ => none
  else some (h, k)

/-- `handleDynamicVariable` from the handler (part_017): `args[0]` is read
before the switch, so an empty argument list panics (`none`). -/
def handleDynamicVariable (f : ResponseFuncConfig) (h : HandlerExecutor) : Option HandlerExecutor :=
  match getArg f.Args 0 with
  | none => none
  | some a0 =>
      let targetVar := gofmt a0
      if f.Func = FuncConvertToString then
        some (match lookupField h.Variables targetVar with
          | some v => { h with Variables := setVar h.Variables targetVar (.vStr (gofmt v)) }
          | none => h)
      else if f.Func = FuncConvertToInt then
        some (match lookupField h.Variables targetVar with
          | some v => { h with Variables := setVar h.Variables targetVar (.vNum ((goTrunc (toFloat v) : Int) : ℚ)) }
          | none => h)
      else if f.Func = FuncDelete then
        some { h with Variables := delVar h.Variables targetVar }
      else some h

/-- The field mutation a `SetupResponse` instruction performs once its case
guard has passed: the switch body of `handleSetupResponse`. `SetMethod` has
an empty case body, and an unrecognized name falls through; both are
no-ops. `args[1]`/`args[2]` are unguarded, so a matched case with too few
arguments panics (`none`). -/
def applySetupAction (req : Request) (f : ResponseFuncConfig) (h : HandlerExecutor) :
    Option HandlerExecutor :=
  let args := f.Args
  if f.Func = FuncSetJsonBody then
    match getArg args 1 with
    | some a1 => some { h with Body := gofmt a1 }
    | none => none
  else if f.Func = FuncSetStatusCode then
    match getArg args 1 with
    | some a1 => some { h with StatusCode := goTrunc (toFloat a1) }
    | none => none
  else if f.Func = FuncSetWait then
    match getArg args 1 with
    | some a1 => some { h with FixedDelay := goTrunc (toFloat a1) }
    | none => none
  else if f.Func = FuncSetRandomWait then
    match getArg args 1, getArg args 2 with
    | some a1, some a2 =>
        some { h with RandomWaitMin := goTrunc (toFloat a1), RandomWaitMax := goTrunc (toFloat a2) }
    | _, _ => none
  else if f.Func = FuncSetMethod then some h
  else if f.Func = FuncSetHeader then
    match getArg args 1, getArg args 2 with
    | some a1, some a2 =>
        some { h with Headers := setHeader h.Headers (gofmt a1) (resolveString h.Variables (gofmt a2)) }
    | _, _ => none
  else if f.Func = FuncCopyHeaderFromRequest then
    match getArg args 1 with
    | some a1 =>
        let key := gofmt a1
        let val := valuesGet req.headers key
        some (if val ≠ "" then { h with Headers := setHeader h.Headers key val } else h)
    | none => none
  else some h

/-- `handleSetupResponse` from the handler (part_017): no arguments is a
no-op; the first argument is the case label, compared against the active
case at this very moment — a mismatch skips the instruction entirely. -/
def handleSetupResponse (req : Request) (f : ResponseFuncConfig) (h : HandlerExecutor) :
    Option HandlerExecutor :=
  match f.Args with
  | [] => some h
  | a0 :: _ =>
      if gofmt a0 ≠ h.ActiveCase then some h
      else applySetupAction req f h

/-- `runFunc` from the handler: dispatch on the instruction group. Every
branch of every group handler ends in `return nil`, so the Go error
component (the second member of the pair) is `none` at every return site;
`none` overall still models a panic inside the handler. -/
def runFunc (o : Oracle) (req : Request) (f : ResponseFuncConfig)
    (st : HandlerExecutor × Nat) : Option ((HandlerExecutor × Nat) × Option String) :=
  if f.Group = GroupPrepareData then some ((handlePrepareData req f st.1, st.2), none)
  else if f.Group = GroupGenerator then
    (handleGenerator o f st.1 st.2).map (fun st' => (st', none))
  else if f.Group = GroupDynamicVariable then
    (handleDynamicVariable f st.1).map (fun h' => ((h', st.2), none))
  else if f.Group = GroupSetupResponse then
    (handleSetupResponse req f st.1).map (fun h' => ((h', st.2), none))
  else some ((st.1, st.2), none)

/-- The instruction loop of `Execute`: run each instruction in order,
returning early if one reports an error (none ever does) and propagating a
panic (`none`). -/
def ExecuteSteps (o : Oracle) (req : Request) :
    List ResponseFuncConfig → HandlerExecutor × Nat → Option ((HandlerExecutor × Nat) × Option String)
  | [], st => some (st, none)
  | f :: fs, st =>
      match runFunc o req f st with
      | none => none
      | some (st', some e) => some (st', some e)
      | some (st', none) => ExecuteSteps o req fs st'

/-- `Execute` from the handler: buffer and decode the request body into
`ParsedBody` (modelled by `req.jsonBody`), then run the instruction list
on the fresh executor state. -/
def Execute (o : Oracle) (req : Request) (steps : List ResponseFuncConfig) :
    Option ((HandlerExecutor × Nat) × Option String) :=
  ExecuteSteps o req steps ({ NewHandlerExecutor with ParsedBody := req.jsonBody }, 0)

/-- The written HTTP response. -/
structure MockResponse where
  status : Int
  headers : List (String × String)
  body : String

/-- `Finalize` from the handler: sleep the fixed and random delays (pure
time effects, absent from the written response; the `rand.Intn(max-min)`
there runs only under `max > min`, so it cannot panic), set the
accumulated headers, write the status code, and write the body after one
final template resolution against the variables. -/
def Finalize (h : HandlerExecutor) : MockResponse :=
  { status := h.StatusCode
    headers := h.Headers
    body := resolveString h.Variables h.Body }

/-- The controller's mutable state: the route table and the set of ports
with a running listener. Go's nested map `Routes[port][method][path]` is
flattened to association-list entries keyed by the triple, which preserves
lookup/update/delete semantics; a stored script is the decoded instruction
list (Go's nil and empty slices are identified). -/
structure ControllerState where
  Routes : List ((Int × String × String) × List ResponseFuncConfig)
  Servers : List Int

def assocFind (routes : List ((Int × String × String) × List ResponseFuncConfig))
    (key : Int × String × String) : Option (List ResponseFuncConfig) :=
  match routes with
  | [] => none
  | (k, v) :: rest => if k = key then some v else assocFind rest key

def assocSet (routes : List ((Int × String × String) × List ResponseFuncConfig))
    (key : Int × String × String) (v : List ResponseFuncConfig) :
    List ((Int × String × String) × List ResponseFuncConfig) :=
  match routes with
  | [] => [(key, v)]
  | (k, v') :: rest => if k = key then (key, v) :: rest else (k, v') :: assocSet rest key v

/-- The route lookup of `handleMockRequest`: the three nested map reads
with their `ok` checks, i.e. an exact match on (port, method, path). -/
def lookupRoute (st : ControllerState) (port : Int) (method path : String) :
    Option (List ResponseFuncConfig) :=
  assocFind st.Routes (port, method, path)

/-- `handleRegisterRoute` (server.go, with decoding and locking stripped):
store the posted instruction list under (port, method, path), replacing any
previous script wholesale, and start a listener for the port only when
none is running. `startMockServerLocked` always returns a nil error (the
listener runs in a goroutine whose failures are only logged), so the
response status is always 200. -/
def handleRegisterRoute (st : ControllerState) (port : Int) (method path : String)
    (responseFunc : List ResponseFuncConfig) : ControllerState × Int :=
  if port ∈ st.Servers then
    ({ Routes := assocSet st.Routes (port, method, path) responseFunc, Servers := st.Servers }, 200)
  else
    ({ Routes := assocSet st.Routes (port, method, path) responseFunc,
       Servers := port :: st.Servers }, 200)

/-- Removal of every route entry keyed by the port — the effect of
`delete(mc.Routes, port)` on the flattened table. -/
def removePortRoutes (port : Int) :
    List ((Int × String × String) × List ResponseFuncConfig) →
    List ((Int × String × String) × List ResponseFuncConfig)
  | [] => []
  | (k, v) :: rest =>
      if k.1 = port then removePortRoutes port rest
      else (k, v) :: removePortRoutes port rest

/-- Removal of a port from the listener set — `delete(mc.Servers, port)`. -/
def removeServer (port : Int) : List Int → List Int
  | [] => []
  | q :: rest => if q = port then removeServer port rest else q :: removeServer port rest

/-- `handleResetPort` (server.go): drop every route of the port
(`delete(mc.Routes, port)` removes that port's whole sub-map), drop the
port's listener, and answer 200 — also when there was nothing to drop.
The graceful-shutdown wait is a pure time effect outside this model. -/
def handleResetPort (st : ControllerState) (port : Int) : ControllerState × Int :=
  ({ Routes := removePortRoutes port st.Routes
     Servers := removeServer port st.Servers }, 200)

/-- The 404 response `http.NotFound` writes: Go's standard body, not an
empty one. (The `Content-Type: text/plain` header it also sets is elided.) -/
def notFoundResponse : MockResponse :=
  { status := 404, headers := [], body := "404 page not found\n" }

/-- The 500 response of `handleMockRequest`'s error branch
(`http.Error(w, "Mock error: ...", 500)`). -/
def mockErrorResponse (e : String) : MockResponse :=
  { status := 500, headers := [], body := "Mock error: " ++ e ++ "\n" }

/-- `handleMockRequest` (server.go): look up the exact (port, method, path)
triple; no match answers 404 without executing anything; a match executes
the script and finalizes, with the 500 branch reserved for a non-nil
execution error. `none` models a panic inside execution, where this
handler writes no response. -/
def handleMockRequest (o : Oracle) (st : ControllerState) (port : Int) (req : Request) :
    Option MockResponse :=
  match lookupRoute st port req.method req.path with
  | none => some notFoundResponse
  | some steps =>
      match Execute o req steps with
      | none => none
      | some (_, some e) => some (mockErrorResponse e)
      | some ((h, _), none) => some (Finalize h)

/-- Whether a value is a decoded JSON object (a Go `map[string]interface\x7b\x7d`). -/
def isObjV : GoValue → Bool
  | .vObj _ => true
  | _ => false

/-- Whether a value is a decoded JSON array (a Go `[]interface\x7b\x7d`). -/
def isArrV : GoValue → Bool
  | .vArr _ => true
  | _ => false

/-- Statement-side view used by the case-selection claim: `f` is one of the
four `…SetCase` instructions (with the arity the client constructors
produce), its case label stringifies to `c`, and its condition — the exact
`checkCondition` call `handlePrepareData` makes for that variant — holds
against the request and the variables/parsed body of `h`. -/
def SetCaseFires (req : Request) (h : HandlerExecutor) (f : ResponseFuncConfig) (c : String) : Prop :=
  f.Group = GroupPrepareData ∧
  ((∃ a0 a1 a2 a3, f.Func = FuncIfRequestHeaderSetCase ∧ f.Args = [a0, a1, a2, a3] ∧ c = gofmt a3 ∧
      checkCondition (.vStr (valuesGet req.headers (gofmt a0))) (gofmt a1) (resolveArg h.Variables a2) = true) ∨
   (∃ a0 a1 a2 a3, f.Func = FuncIfRequestJsonBodySetCase ∧ f.Args = [a0, a1, a2, a3] ∧ c = gofmt a3 ∧
      checkCondition (getJSONPath h.ParsedBody (gofmt a0)) (gofmt a1) (resolveArg h.Variables a2) = true) ∨
   (∃ a0 a1 a2, f.Func = FuncIfRequestPathSetCase ∧ f.Args = [a0, a1, a2] ∧ c = gofmt a2 ∧
      checkCondition (.vStr req.path) (gofmt a0) (resolveArg h.Variables a1) = true) ∨
   (∃ a0 a1 a2 a3, f.Func = FuncIfRequestQuerySetCase ∧ f.Args = [a0, a1, a2, a3] ∧ c = gofmt a3 ∧
      checkCondition (.vStr (valuesGet req.query (gofmt a0))) (gofmt a1) (resolveArg h.Variables a2) = true))

/-- Concrete oracle for witnesses: a constant rng stream and trivial hash
encoders. -/
def oracle0 : Oracle := { rng := fun _ => 0, md5Hex := fun _ => "", sha256Hex := fun _ => "" }

/-- A bare GET request with no body. -/
def req0 : Request := { method := "GET", path := "/", headers := [], query := [], jsonBody := none }

/-- A GET request carrying the header Type: B. -/
def reqB : Request :=
  { method := "GET", path := "/", headers := [("Type", "B")], query := [], jsonBody := none }

/-- A POST request whose decoded JSON body is the object with field n = 5
(a native JSON number). -/
def reqN5 : Request :=
  { method := "POST", path := "/", headers := [], query := [],
    jsonBody := some (.vObj [("n", .vNum 5)]) }

/-- The decoded JSON document of the path-resolution claim. -/
def body6 : GoValue :=
  .vObj [("a", .vNum 1), ("b", .vObj [("c", .vNum 2)]), ("d", .vArr [.vNum 3, .vNum 4])]

/- ------------------------------------------------------------------ -/
/- Helper lemmas                                                      -/
/- ------------------------------------------------------------------ -/

/-- Script execution decomposes over concatenation: the instructions of
`xs` run to completion (or panic, or return an error) before any
instruction of `ys` is looked at. -/
theorem ExecuteSteps_append (o : Oracle) (req : Request) (xs ys : List ResponseFuncConfig)
    (st : HandlerExecutor × Nat) :
    ExecuteSteps o req (xs ++ ys) st =
      (match ExecuteSteps o req xs st with
       | none => none
       | some (st', some e) => some (st', some e)
       | some (st', none) => ExecuteSteps o req ys st') := by
  induction xs generalizing st with
  | nil => simp [ExecuteSteps]
  | cons f fs ih =>
      simp only [List.cons_append, ExecuteSteps]
      cases hr : runFunc o req f st with
      | none => rfl
      | some p =>
          rcases p with ⟨st', e⟩
          cases e with
          | none => exact ih st'
          | some e' => rfl

/-- A case-setting instruction whose condition holds rewrites the active
case to its label and changes nothing else (and returns a nil error). -/
theorem runFunc_setCaseFires (o : Oracle) (req : Request) (h : HandlerExecutor) (k : Nat)
    (f : ResponseFuncConfig) (c : String) (hf : SetCaseFires req h f c) :
    runFunc o req f (h, k) = some (({ h with ActiveCase := c }, k), none) := by
  obtain ⟨hg, hcase⟩ := hf
  rcases hcase with ⟨a0, a1, a2, a3, hfn, hargs, hc, hcond⟩ | ⟨a0, a1, a2, a3, hfn, hargs, hc, hcond⟩ |
      ⟨a0, a1, a2, hfn, hargs, hc, hcond⟩ | ⟨a0, a1, a2, a3, hfn, hargs, hc, hcond⟩ <;>
    subst hc <;>
    simp [runFunc, hg, handlePrepareData, hfn, hargs, GroupPrepareData, FuncIfRequestHeader,
      FuncIfRequestJsonBody, FuncIfRequestPath, FuncIfRequestQuery, FuncIfRequestHeaderSetCase,
      FuncIfRequestJsonBodySetCase, FuncIfRequestPathSetCase, FuncIfRequestQuerySetCase,
      argD, hcond]

/- ------------------------------------------------------------------ -/
/- Claims                                                             -/
/- ------------------------------------------------------------------ -/

/-- C1: a ResponseSetup instruction is gated by the active case at the
moment it executes. The fresh executor starts with the empty active case;
an instruction whose first argument stringifies to anything other than the
current active case leaves the whole state untouched, while a matching
first argument hands the state to the (unguarded) field-setting switch
`applySetupAction`; execution is a left-to-right fold, so a later
case-setting instruction cannot retroactively enable an earlier one —
demonstrated by the two concrete scripts, where `SetStatusCode "CaseB" 201`
placed before the case switch leaves the default 200 and placed after it
yields 201. -/
theorem c1_response_setup_gating :
    (NewHandlerExecutor.ActiveCase = "") ∧
    (∀ req f h a0 rest, f.Args = a0 :: rest → gofmt a0 ≠ h.ActiveCase →
        handleSetupResponse req f h = some h) ∧
    (∀ req f h a0 rest, f.Args = a0 :: rest → gofmt a0 = h.ActiveCase →
        handleSetupResponse req f h = applySetupAction req f h) ∧
    (∀ o req xs ys st, ExecuteSteps o req (xs ++ ys) st =
      (match ExecuteSteps o req xs st with
       | none => none
       | some (st', some e) => some (st', some e)
       | some (st', none) => ExecuteSteps o req ys st')) ∧
    ((Execute oracle0 reqB
        [⟨GroupSetupResponse, FuncSetStatusCode, [.vStr "CaseB", .vNum 201]⟩,
         ⟨GroupPrepareData, FuncIfRequestHeaderSetCase, [.vStr "Type", .vStr "Equal", .vStr "B", .vStr "CaseB"]⟩]).map
        (fun r => r.1.1.StatusCode) = some 200) ∧
    ((Execute oracle0 reqB
        [⟨GroupPrepareData, FuncIfRequestHeaderSetCase, [.vStr "Type", .vStr "Equal", .vStr "B", .vStr "CaseB"]⟩,
         ⟨GroupSetupResponse, FuncSetStatusCode, [.vStr "CaseB", .vNum 201]⟩]).map
        (fun r => r.1.1.StatusCode) = some 201) := by
  refine ⟨rfl, ?_, ?_, ExecuteSteps_append, rfl, rfl⟩
  · intro req f h a0 rest hargs hne
    simp [handleSetupResponse, hargs, hne]
  · intro req f h a0 rest hargs heq
    simp [handleSetupResponse, hargs, heq]

/-- Witness for C1: the gating equations applied at concrete inputs — a
`SetStatusCode` whose case label "A" differs from the fresh executor's
empty active case is skipped, and one whose label is the empty string is
handed to the field-setting switch. -/
theorem c1_witness :
    handleSetupResponse req0 ⟨GroupSetupResponse, FuncSetStatusCode, [.vStr "A", .vNum 201]⟩
        NewHandlerExecutor = some NewHandlerExecutor ∧
    handleSetupResponse req0 ⟨GroupSetupResponse, FuncSetStatusCode, [.vStr "", .vNum 201]⟩
        NewHandlerExecutor
      = applySetupAction req0 ⟨GroupSetupResponse, FuncSetStatusCode, [.vStr "", .vNum 201]⟩
        NewHandlerExecutor :=
  ⟨c1_response_setup_gating.2.1 req0 _ NewHandlerExecutor _ _ rfl (by decide),
   c1_response_setup_gating.2.2.1 req0 _ NewHandlerExecutor _ _ rfl (by decide)⟩

/-- C2: case selection is last-match-wins. For any two case-setting
instructions whose conditions both hold in the incoming state (conditions
read only the request, the variables and the parsed body, none of which a
case-setting instruction changes), running them in order leaves the later
instruction's label as the active case. -/
theorem c2_last_setcase_wins (o : Oracle) (req : Request) (h : HandlerExecutor) (k : Nat)
    (f1 f2 : ResponseFuncConfig) (c1 c2 : String)
    (hf1 : SetCaseFires req h f1 c1) (hf2 : SetCaseFires req h f2 c2) :
    ExecuteSteps o req [f1, f2] (h, k) = some (({ h with ActiveCase := c2 }, k), none) := by
  have h1 := runFunc_setCaseFires o req h k f1 c1 hf1
  have h2 := runFunc_setCaseFires o req { h with ActiveCase := c1 } k f2 c2 hf2
  simp only [ExecuteSteps, h1, h2]

/-- Witness for C2: two `IfRequestHeaderSetCase` instructions on the same
header, both of whose `Equal` conditions hold; the final active case is
the second label, "CaseB". -/
theorem c2_witness :
    ExecuteSteps oracle0 reqB
      [⟨GroupPrepareData, FuncIfRequestHeaderSetCase, [.vStr "Type", .vStr "Equal", .vStr "B", .vStr "CaseA"]⟩,
       ⟨GroupPrepareData, FuncIfRequestHeaderSetCase, [.vStr "Type", .vStr "Equal", .vStr "B", .vStr "CaseB"]⟩]
      (NewHandlerExecutor, 0)
      = some (({ NewHandlerExecutor with ActiveCase := "CaseB" }, 0), none) :=
  c2_last_setcase_wins oracle0 reqB NewHandlerExecutor 0 _ _ "CaseA" "CaseB"
    ⟨rfl, Or.inl ⟨_, _, _, _, rfl, rfl, rfl, by decide⟩⟩
    ⟨rfl, Or.inl ⟨_, _, _, _, rfl, rfl, rfl, by decide⟩⟩

/-- An ordering comparison of the v1 condition library is false whenever
the operands are not both native numbers. -/
theorem compareNumbers_non_numeric (a b : GoValue) (cmp : ℚ → ℚ → Bool)
    (hab : ¬(V1.isNumber a = true ∧ V1.isNumber b = true)) :
    V1.compareNumbers a b cmp = false := by
  unfold V1.compareNumbers
  split_ifs with h1 h2
  · rfl
  · rw [Bool.and_eq_true] at h2
    exact absurd h2 hab
  · rfl

/-- C3 counterexample: the evaluator that decides an instruction's
condition is the handler's `checkCondition`, which stringifies both
operands and implements only `Equal` — there the number 5 and the string
"5" ARE equal, and `GreaterThan(5, 3)` evaluates false, contradicting the
claim at these explicit inputs. The second pair shows the same at the
instruction level: against the body `\x7b"n": 5\x7d`, an
`IfRequestJsonBody("n", Equal, "5", MATCHED, yes)` instruction fires and
binds its variable (native 5 deemed Equal to the string "5"), while an
`IfRequestJsonBody("n", GreaterThan, "3", GT, yes)` instruction — whose
condition the claim calls true — does not fire. -/
theorem c3_counterexample :
    (checkCondition (.vNum 5) ConditionEqual (.vStr "5") = true ∧
     checkCondition (.vNum 5) "GreaterThan" (.vNum 3) = false) ∧
    (Execute oracle0 reqN5
        [⟨GroupPrepareData, FuncIfRequestJsonBody,
          [.vStr "n", .vStr "Equal", .vStr "5", .vStr "MATCHED", .vStr "yes"]⟩]).map
        (fun r => lookupField r.1.1.Variables "MATCHED") = some (some (.vStr "yes")) ∧
    (Execute oracle0 reqN5
        [⟨GroupPrepareData, FuncIfRequestJsonBody,
          [.vStr "n", .vStr "GreaterThan", .vStr "3", .vStr "GT", .vStr "yes"]⟩]).map
        (fun r => lookupField r.1.1.Variables "GT") = some none := by
  exact ⟨⟨by decide, by decide⟩, rfl, rfl⟩

/-- C3 amended: the stated semantics (null equals only null, native-numeric
operands compare numerically, no string-to-number coercion under `Equal`,
`GreaterThan(5,3)` true, `GreaterThan("5",3)` false, ordering of
non-numeric operands false without error) hold of the v1 condition
library's `evaluateCondition`; but an instruction's condition is decided by
the handler's `checkCondition`, where every comparison is stringified
equality (`5` equals `"5"`) and every keyword other than `Equal` — in
particular all ordering conditions — evaluates false. -/
theorem c3_condition_semantics :
    (∀ b, V1.valuesEqual .vNull b = isNull b) ∧
    (∀ a, V1.valuesEqual a .vNull = isNull a) ∧
    (∀ p q : ℚ, V1.evaluateCondition (.vNum p) V1.ConditionEqual (.vNum q) = (p == q)) ∧
    (V1.evaluateCondition (.vNum 5) V1.ConditionEqual (.vStr "5") = false) ∧
    (∀ s t, V1.evaluateCondition (.vStr s) V1.ConditionEqual (.vStr t) = (s == t)) ∧
    (V1.evaluateCondition (.vNum 5) V1.ConditionGreaterThan (.vNum 3) = true) ∧
    (V1.evaluateCondition (.vStr "5") V1.ConditionGreaterThan (.vNum 3) = false) ∧
    (∀ a b, ¬(V1.isNumber a = true ∧ V1.isNumber b = true) →
        V1.evaluateCondition a V1.ConditionGreaterThan b = false) ∧
    (∀ a c b, c ≠ ConditionEqual → checkCondition a c b = false) ∧
    (∀ a b, checkCondition a ConditionEqual b = (gofmt a == gofmt b)) ∧
    (checkCondition (.vNum 5) ConditionEqual (.vStr "5") = true) ∧
    (checkCondition (.vNum 5) V1.ConditionGreaterThan (.vNum 3) = false) := by
  refine ⟨?_, ?_, ?_, by decide, ?_, by decide, by decide, ?_, ?_, ?_, by decide, by decide⟩
  · intro b; cases b <;> rfl
  · intro a; cases a <;> rfl
  · intro p q; rfl
  · intro s t
    show V1.valuesEqual (.vStr s) (.vStr t) = (s == t)
    simp [V1.valuesEqual, isNull, V1.isNumber, deepEqual]
  · intro a b hab
    have : V1.evaluateCondition a V1.ConditionGreaterThan b
        = V1.compareNumbers a b (fun x y => x > y) := rfl
    rw [this]
    exact compareNumbers_non_numeric a b _ hab
  · intro a c b hc
    show (if c = ConditionEqual then (gofmt a == gofmt b) else false) = false
    exact if_neg hc
  · intro a b; rfl

/-- Witness for C3: the hypothesis-bearing conjuncts applied at concrete
inputs — an ordering comparison with a non-numeric operand is false in the
v1 library, and a non-Equal keyword is false in the handler's evaluator. -/
theorem c3_witness :
    V1.evaluateCondition (.vBool true) V1.ConditionGreaterThan (.vNum 3) = false ∧
    checkCondition (.vNum 1) "Contains" (.vNum 1) = false :=
  ⟨c3_condition_semantics.2.2.2.2.2.2.2.1 (.vBool true) (.vNum 3) (by decide),
   c3_condition_semantics.2.2.2.2.2.2.2.2.1 (.vNum 1) "Contains" (.vNum 1) (by decide)⟩

/-- C4 counterexample: a template referencing an unbound variable renders
as `<no value>` (Go `text/template`'s output for a missing map key), not as
the empty string the claim asserts. -/
theorem c4_counterexample :
    resolveString [] "\x7b\x7b.X\x7d\x7d" = "<no value>" ∧
    ¬(resolveString [] "\x7b\x7b.X\x7d\x7d" = "") := by
  exact ⟨rfl, by decide⟩

/-- C4 amended: strings without the `\x7b\x7b` marker pass through
`resolveString` unchanged; the body template renders bound variables in
place; a reference whose variable is unbound renders as `<no value>`
(rather than empty) without failing the request; and a string that fails
to parse as a template (an unclosed action) is emitted verbatim. -/
theorem c4_template_rendering :
    (∀ vars s, goContains s "\x7b\x7b" = false → resolveString vars s = s) ∧
    (resolveString [("X", .vStr "hi")] "\x7b\"v\":\"\x7b\x7b.X\x7d\x7d\"\x7d"
      = "\x7b\"v\":\"hi\"\x7d") ∧
    (∀ vars, lookupField vars "X" = none →
        resolveString vars "\x7b\x7b.X\x7d\x7d" = "<no value>") ∧
    (∀ vars, resolveString vars "\x7b\x7b" = "\x7b\x7b") := by
  refine ⟨?_, rfl, ?_, fun vars => rfl⟩
  · intro vars s hs
    simp [resolveString, hs]
  · intro vars hv
    show (match lookupField vars "X" with
          | some v => gofmt v
          | none => "<no value>") ++ renderTmpl vars [] = "<no value>"
    rw [hv]
    rfl

/-- Witness for C4: the pass-through and unbound-reference equations
applied at concrete inputs. -/
theorem c4_witness :
    resolveString [("A", .vStr "x")] "plain body" = "plain body" ∧
    resolveString [("A", .vStr "x")] "\x7b\x7b.X\x7d\x7d" = "<no value>" :=
  ⟨c4_template_rendering.1 [("A", .vStr "x")] "plain body" (by decide),
   c4_template_rendering.2.2.1 [("A", .vStr "x")] rfl⟩

/-- C5: the code at the failing inputs. Contrary to the crash-freedom
claim, `handleGenerator` guards no argument count and `rand.Intn` is
called on `max - min + 1` unchecked: `GenerateRandomInt(5, 3, "V")` — an
inverted range — panics inside `rand.Intn(-1)` for every oracle and
request, and `GenerateRandomString` with an empty argument list panics on
`args[0]`; in both cases the script aborts (`none`) instead of degrading
to a no-op. `handlePrepareData` and `handleSetupResponse`, by contrast,
check `len(args)` first — the missing guards contradict the spec's
explicit failure semantics. -/
theorem c5_generator_panic :
    (∀ o req, Execute o req
      [⟨GroupGenerator, FuncGenerateRandomInt, [.vNum 5, .vNum 3, .vStr "V"]⟩] = none) ∧
    (∀ o req, Execute o req
      [⟨GroupGenerator, FuncGenerateRandomString, ([] : List GoValue)⟩] = none) ∧
    (∀ o req, Execute o req
      [⟨GroupDynamicVariable, FuncDelete, ([] : List GoValue)⟩] = none) := by
  refine ⟨fun o req => rfl, fun o req => rfl, fun o req => rfl⟩

/-- C6: JSON path resolution. The five concrete resolutions of the claim's
document, and the general not-found behavior: a plain segment applied to a
non-object, or to an object lacking the key, resolves to nil; a bracket
suffix applied to a non-array value, or with an out-of-bounds index,
resolves to nil — in every case without crashing (the resolver is a total
function). -/
theorem c6_json_path :
    (getJSONPath (some body6) "a" = .vNum 1) ∧
    (getJSONPath (some body6) "b.c" = .vNum 2) ∧
    (getJSONPath (some body6) "d[0]" = .vNum 3) ∧
    (getJSONPath (some body6) "d[1]" = .vNum 4) ∧
    (getJSONPath (some body6) "x.y" = .vNull) ∧
    (∀ part rest v, isObjV v = false → getJSONPathAux (part :: rest) v = .vNull) ∧
    (∀ part rest fields, lookupField fields (splitBracket part).1 = none →
        getJSONPathAux (part :: rest) (.vObj fields) = .vNull) ∧
    (∀ part rest fields val, lookupField fields (splitBracket part).1 = some val →
        0 ≤ (splitBracket part).2 → isArrV val = false →
        getJSONPathAux (part :: rest) (.vObj fields) = .vNull) ∧
    (∀ part rest fields arr, lookupField fields (splitBracket part).1 = some (.vArr arr) →
        0 ≤ (splitBracket part).2 → arr.length ≤ (splitBracket part).2.toNat →
        getJSONPathAux (part :: rest) (.vObj fields) = .vNull) := by
  refine ⟨rfl, rfl, rfl, rfl, rfl, ?_, ?_, ?_, ?_⟩
  · intro part rest v hv
    rcases hsb : splitBracket part with ⟨key, idx⟩
    cases v with
    | vObj fields => exact absurd hv (by simp [isObjV])
    | vNull => simp [getJSONPathAux, hsb]
    | vNum q => simp [getJSONPathAux, hsb]
    | vStr s => simp [getJSONPathAux, hsb]
    | vBool b => simp [getJSONPathAux, hsb]
    | vArr xs => simp [getJSONPathAux, hsb]
  · intro part rest fields hlk
    rcases hsb : splitBracket part with ⟨key, idx⟩
    rw [hsb] at hlk
    simp [getJSONPathAux, hsb, hlk]
  · intro part rest fields val hlk hidx hval
    rcases hsb : splitBracket part with ⟨key, idx⟩
    rw [hsb] at hlk hidx
    simp only at hlk hidx
    cases val with
    | vArr xs => exact absurd hval (by simp [isArrV])
    | vNull => simp [getJSONPathAux, hsb, hlk, hidx]
    | vNum q => simp [getJSONPathAux, hsb, hlk, hidx]
    | vStr s => simp [getJSONPathAux, hsb, hlk, hidx]
    | vBool b => simp [getJSONPathAux, hsb, hlk, hidx]
    | vObj fs => simp [getJSONPathAux, hsb, hlk, hidx]
  · intro part rest fields arr hlk hidx hlen
    rcases hsb : splitBracket part with ⟨key, idx⟩
    rw [hsb] at hlk hidx hlen
    simp only at hlk hidx hlen
    simp [getJSONPathAux, hsb, hlk, hidx]
    intro hlt
    omega

/-- Witness for C6: the not-found cases applied at concrete inputs — a
segment on a number, a missing key, a bracket on a string, and an
out-of-bounds index. -/
theorem c6_witness :
    getJSONPathAux ["k"] (.vNum 1) = .vNull ∧
    getJSONPathAux ["k"] (.vObj []) = .vNull ∧
    getJSONPathAux ["k[0]"] (.vObj [("k", .vStr "s")]) = .vNull ∧
    getJSONPathAux ["k[2]"] (.vObj [("k", .vArr [.vNum 7])]) = .vNull :=
  ⟨c6_json_path.2.2.2.2.2.1 "k" [] (.vNum 1) rfl,
   c6_json_path.2.2.2.2.2.2.1 "k" [] [] rfl,
   c6_json_path.2.2.2.2.2.2.2.1 "k[0]" [] [("k", .vStr "s")] (.vStr "s") rfl (by decide) rfl,
   c6_json_path.2.2.2.2.2.2.2.2 "k[2]" [] [("k", .vArr [.vNum 7])] [.vNum 7] rfl (by decide) (by decide)⟩

/-- Storing a script and reading it back at the same key. -/
theorem assocFind_assocSet (l : List ((Int × String × String) × List ResponseFuncConfig))
    (k : Int × String × String) (v : List ResponseFuncConfig) :
    assocFind (assocSet l k v) k = some v := by
  induction l with
  | nil => simp [assocSet, assocFind]
  | cons e rest ih =>
      rcases e with ⟨k', v'⟩
      by_cases hk : k' = k
      · subst hk; simp [assocSet, assocFind]
      · simp [assocSet, assocFind, hk, ih]

/-- Storing the same script twice is the same table as storing it once. -/
theorem assocSet_idem (l : List ((Int × String × String) × List ResponseFuncConfig))
    (k : Int × String × String) (v : List ResponseFuncConfig) :
    assocSet (assocSet l k v) k v = assocSet l k v := by
  induction l with
  | nil => simp [assocSet]
  | cons e rest ih =>
      rcases e with ⟨k', v'⟩
      by_cases hk : k' = k
      · subst hk; simp [assocSet]
      · simp [assocSet, hk, ih]

/-- No entry of the purged port survives its route-table purge. -/
theorem assocFind_removePort_self (l : List ((Int × String × String) × List ResponseFuncConfig))
    (p : Int) (m pa : String) :
    assocFind (removePortRoutes p l) (p, m, pa) = none := by
  induction l with
  | nil => rfl
  | cons e rest ih =>
      rcases e with ⟨⟨ep, em, epa⟩, v⟩
      by_cases hp : ep = p
      · simp [removePortRoutes, hp, ih]
      · have hkey : ¬((ep, em, epa) = (p, m, pa)) := fun hc => hp (congrArg Prod.fst hc)
        simp [removePortRoutes, hp, assocFind, hkey, ih]

/-- Entries of other ports survive a port's route-table purge untouched. -/
theorem assocFind_removePort_ne (l : List ((Int × String × String) × List ResponseFuncConfig))
    (p q : Int) (m pa : String) (hq : q ≠ p) :
    assocFind (removePortRoutes p l) (q, m, pa) = assocFind l (q, m, pa) := by
  induction l with
  | nil => rfl
  | cons e rest ih =>
      rcases e with ⟨⟨ep, em, epa⟩, v⟩
      by_cases hp : ep = p
      · have hne : ¬(p = q) := fun hc => hq hc.symm
        simp [removePortRoutes, hp, assocFind, hne, ih]
      · by_cases hkey : (ep, em, epa) = (q, m, pa)
        · simp [removePortRoutes, hp, assocFind, hkey]
        · simp [removePortRoutes, hp, assocFind, hkey, ih]

/-- The reset port is gone from the listener set. -/
theorem not_mem_removeServer (l : List Int) (p : Int) : p ∉ removeServer p l := by
  induction l with
  | nil => simp [removeServer]
  | cons q rest ih =>
      by_cases hq : q = p
      · simpa [removeServer, hq] using ih
      · simp only [removeServer, if_neg hq, List.mem_cons]
        rintro (hc | hc)
        · exact hq hc.symm
        · exact ih hc

/-- Other ports' listener membership is untouched by a reset. -/
theorem mem_removeServer_ne (l : List Int) (p q : Int) (hq : q ≠ p) :
    q ∈ removeServer p l ↔ q ∈ l := by
  induction l with
  | nil => simp [removeServer]
  | cons a rest ih =>
      by_cases ha : a = p
      · subst ha
        have h1 : removeServer a (a :: rest) = removeServer a rest := by simp [removeServer]
        rw [h1, ih, List.mem_cons]
        constructor
        · exact Or.inr
        · rintro (hc | hc)
          · exact absurd hc hq
          · exact hc
      · simp only [removeServer, if_neg ha, List.mem_cons, ih]

/-- Purging a port's routes twice equals purging once. -/
theorem removePortRoutes_idem (p : Int)
    (l : List ((Int × String × String) × List ResponseFuncConfig)) :
    removePortRoutes p (removePortRoutes p l) = removePortRoutes p l := by
  induction l with
  | nil => rfl
  | cons e rest ih =>
      rcases e with ⟨k, v⟩
      by_cases hp : k.1 = p
      · simp [removePortRoutes, hp, ih]
      · simp [removePortRoutes, hp, ih]

/-- Dropping a listener twice equals dropping once. -/
theorem removeServer_idem (p : Int) (l : List Int) :
    removeServer p (removeServer p l) = removeServer p l := by
  induction l with
  | nil => rfl
  | cons q rest ih =>
      by_cases hq : q = p
      · simp [removeServer, hq, ih]
      · simp [removeServer, hq, ih]

/-- C7 counterexample: with no script registered for the triple, the
listener answers 404 — but with Go's standard `http.NotFound` body
`404 page not found`, not the empty body the claim asserts. -/
theorem c7_counterexample :
    handleMockRequest oracle0 ⟨[], []⟩ 9001 req0 = some notFoundResponse ∧
    ¬(notFoundResponse.body = "") := by
  exact ⟨rfl, by decide⟩

/-- C7 amended: dispatch is an exact lookup of (port, method, path) — the
route table model has no pattern matching by construction. A miss answers
status 404 with body `404 page not found` and newline (Go's `http.NotFound`
output, not an empty body) and executes no script: the response is fixed
whatever scripts exist elsewhere in the table. A hit executes the
registered script and the response is entirely determined by that
execution. -/
theorem c7_dispatch :
    (∀ o st port req, lookupRoute st port req.method req.path = none →
        handleMockRequest o st port req = some notFoundResponse) ∧
    (notFoundResponse.status = 404 ∧ notFoundResponse.body = "404 page not found\n") ∧
    (∀ o st port req steps, lookupRoute st port req.method req.path = some steps →
        handleMockRequest o st port req =
          (match Execute o req steps with
           | none => none
           | some (_, some e) => some (mockErrorResponse e)
           | some ((h, _), none) => some (Finalize h))) := by
  refine ⟨?_, ⟨rfl, rfl⟩, ?_⟩
  · intro o st port req hmiss
    simp [handleMockRequest, hmiss]
  · intro o st port req steps hhit
    simp [handleMockRequest, hhit]

/-- Witness for C7: both dispatch equations at concrete inputs — an empty
table misses, and a table holding the empty script for the triple hits. -/
theorem c7_witness :
    handleMockRequest oracle0 ⟨[], [9001]⟩ 9001 req0 = some notFoundResponse ∧
    handleMockRequest oracle0 ⟨[((9001, "GET", "/"), [])], [9001]⟩ 9001 req0 =
      (match Execute oracle0 req0 [] with
       | none => none
       | some (_, some e) => some (mockErrorResponse e)
       | some ((h, _), none) => some (Finalize h)) :=
  ⟨c7_dispatch.1 oracle0 ⟨[], [9001]⟩ 9001 req0 rfl,
   c7_dispatch.2.2 oracle0 ⟨[((9001, "GET", "/"), [])], [9001]⟩ 9001 req0 [] rfl⟩

/-- C8: `registerRoute` stores the posted script under its triple,
replacing any previous script for that key wholesale; the port's listener
is started only when none is running (an already-running port's listener
set is untouched); the call reports 200; and re-registering the identical
script is idempotent — the controller state and status after two identical
registrations equal those after one, so observable behavior coincides. -/
theorem c8_register_idempotent :
    (∀ st port m p funcs, lookupRoute (handleRegisterRoute st port m p funcs).1 port m p = some funcs) ∧
    (∀ st port m p funcs, port ∈ ((handleRegisterRoute st port m p funcs).1).Servers) ∧
    (∀ st port m p funcs, port ∈ st.Servers →
        ((handleRegisterRoute st port m p funcs).1).Servers = st.Servers) ∧
    (∀ st port m p funcs, (handleRegisterRoute st port m p funcs).2 = 200) ∧
    (∀ st port m p funcs,
        handleRegisterRoute (handleRegisterRoute st port m p funcs).1 port m p funcs
          = handleRegisterRoute st port m p funcs) := by
  refine ⟨?_, ?_, ?_, ?_, ?_⟩
  · intro st port m p funcs
    by_cases hmem : port ∈ st.Servers <;>
      simp [handleRegisterRoute, lookupRoute, hmem, assocFind_assocSet]
  · intro st port m p funcs
    by_cases hmem : port ∈ st.Servers <;> simp [handleRegisterRoute, hmem]
  · intro st port m p funcs hmem
    simp [handleRegisterRoute, hmem]
  · intro st port m p funcs
    by_cases hmem : port ∈ st.Servers <;> simp [handleRegisterRoute, hmem]
  · intro st port m p funcs
    by_cases hmem : port ∈ st.Servers <;>
      simp [handleRegisterRoute, hmem, assocSet_idem]

/-- Witness for C8: the listener-set frame condition applied at a concrete
state whose port already runs. -/
theorem c8_witness :
    ((handleRegisterRoute ⟨[], [9001]⟩ 9001 "GET" "/hello" []).1).Servers = [9001] :=
  c8_register_idempotent.2.2.1 ⟨[], [9001]⟩ 9001 "GET" "/hello" [] (by decide)

/-- C9: `resetPort(p)` answers 200 unconditionally (also when the port has
no routes or listener); afterwards no route of port p resolves and p's
listener is gone, while every other port's routes and listener membership
are exactly as before; and repeating the call leaves the same state and
status. -/
theorem c9_reset_port :
    (∀ st p, (handleResetPort st p).2 = 200) ∧
    (∀ st p m pa, lookupRoute (handleResetPort st p).1 p m pa = none) ∧
    (∀ st p q m pa, q ≠ p →
        lookupRoute (handleResetPort st p).1 q m pa = lookupRoute st q m pa) ∧
    (∀ st p, p ∉ ((handleResetPort st p).1).Servers) ∧
    (∀ st p q, q ≠ p → (q ∈ ((handleResetPort st p).1).Servers ↔ q ∈ st.Servers)) ∧
    (∀ st p, handleResetPort (handleResetPort st p).1 p = handleResetPort st p) := by
  refine ⟨fun st p => rfl, ?_, ?_, ?_, ?_, ?_⟩
  · intro st p m pa
    exact assocFind_removePort_self st.Routes p m pa
  · intro st p q m pa hq
    exact assocFind_removePort_ne st.Routes p q m pa hq
  · intro st p
    exact not_mem_removeServer st.Servers p
  · intro st p q hq
    exact mem_removeServer_ne st.Servers p q hq
  · intro st p
    simp [handleResetPort, removePortRoutes_idem, removeServer_idem]

/-- Witness for C9: the frame equation applied at a concrete state — a
route of port 9002 is untouched by a reset of port 9001. -/
theorem c9_witness :
    lookupRoute (handleResetPort ⟨[((9002, "GET", "/x"), [])], [9002]⟩ 9001).1 9002 "GET" "/x"
      = lookupRoute ⟨[((9002, "GET", "/x"), [])], [9002]⟩ 9002 "GET" "/x" :=
  c9_reset_port.2.2.1 ⟨[((9002, "GET", "/x"), [])], [9002]⟩ 9001 9002 "GET" "/x" (by decide)

/-- Every return site of every group handler carries a nil Go error. -/
theorem runFunc_err_nil (o : Oracle) (req : Request) (f : ResponseFuncConfig)
    (st : HandlerExecutor × Nat) (r : (HandlerExecutor × Nat) × Option String)
    (hr : runFunc o req f st = some r) : r.2 = none := by
  unfold runFunc at hr
  split_ifs at hr
  · injection hr with hr'; rw [← hr']
  · rcases hg : handleGenerator o f st.1 st.2 with _ | st'
    · rw [hg] at hr; exact Option.noConfusion hr
    · rw [hg, Option.map_some'] at hr
      injection hr with hr'; rw [← hr']
  · rcases hg : handleDynamicVariable f st.1 with _ | h'
    · rw [hg] at hr; exact Option.noConfusion hr
    · rw [hg, Option.map_some'] at hr
      injection hr with hr'; rw [← hr']
  · rcases hg : handleSetupResponse req f st.1 with _ | h'
    · rw [hg] at hr; exact Option.noConfusion hr
    · rw [hg, Option.map_some'] at hr
      injection hr with hr'; rw [← hr']
  · injection hr with hr'; rw [← hr']

/-- C10 counterexample: `Execute` does not return a nil error for every
instruction list — on a `GenerateRandomString` with no arguments it panics
(`args[0]` out of range) and never returns at all, so the matched request
neither reaches `Finalize` nor the 500 branch. -/
theorem c10_counterexample :
    Execute oracle0 req0 [⟨GroupGenerator, FuncGenerateRandomString, ([] : List GoValue)⟩] = none := rfl

/-- C10 amended: whenever `Execute` terminates normally, the error it
returns is nil (every branch of `runFunc` and of the group handlers
returns a nil error), so the controller's 500 "Mock error" branch is
unreachable: a matched request that does not panic proceeds to `Finalize`,
and every response `handleMockRequest` writes is either the 404 or a
finalized execution result — one status code and one body by
construction. -/
theorem c10_execute_error_nil :
    (∀ o req steps st r, ExecuteSteps o req steps st = some r → r.2 = none) ∧
    (∀ o st port req r, handleMockRequest o st port req = some r →
        r = notFoundResponse ∨
        ∃ steps h k, lookupRoute st port req.method req.path = some steps ∧
          Execute o req steps = some ((h, k), none) ∧ r = Finalize h) := by
  have hsteps : ∀ o req steps st r, ExecuteSteps o req steps st = some r → r.2 = none := by
    intro o req steps
    induction steps with
    | nil =>
        intro st r hst
        unfold ExecuteSteps at hst
        injection hst with hst'
        rw [← hst']
    | cons f fs ih =>
        intro st r hst
        unfold ExecuteSteps at hst
        rcases hrf : runFunc o req f st with _ | p
        · rw [hrf] at hst; exact absurd hst (by simp)
        · rcases p with ⟨st', e⟩
          have he : e = none := runFunc_err_nil o req f st (st', e) hrf
          subst he
          rw [hrf] at hst
          exact ih st' r hst
  refine ⟨hsteps, ?_⟩
  intro o st port req r hmr
  unfold handleMockRequest at hmr
  split at hmr
  · injection hmr with hmr'
    exact Or.inl hmr'.symm
  · rename_i steps hlk
    split at hmr
    · exact Option.noConfusion hmr
    · rename_i fst e hex
      have he := hsteps o req steps _ _ hex
      exact absurd he (by simp)
    · rename_i h k hex
      injection hmr with hmr'
      exact Or.inr ⟨steps, h, k, hlk, hex, hmr'.symm⟩

/-- Witness for C10: both parts applied at concrete inputs — the empty
script terminates with a nil error, and a request against an empty route
table produces exactly the 404 alternative. -/
theorem c10_witness :
    ((((NewHandlerExecutor, 0) : HandlerExecutor × Nat), (none : Option String)) :
        (HandlerExecutor × Nat) × Option String).2 = none ∧
    (notFoundResponse = notFoundResponse ∨
      ∃ steps h k, lookupRoute (⟨[], []⟩ : ControllerState) 9001 req0.method req0.path = some steps ∧
        Execute oracle0 req0 steps = some ((h, k), none) ∧ notFoundResponse = Finalize h) :=
  ⟨c10_execute_error_nil.1 oracle0 req0 [] (NewHandlerExecutor, 0) _ rfl,
   c10_execute_error_nil.2 oracle0 ⟨[], []⟩ 9001 req0 notFoundResponse rfl⟩

end DMS
